import Mathlib

/-!
Verification of the game-server schema validators and the GameSession
state machine of the negativei2-server repository.

The request validators (`validate_move`, `validate_offer_response`,
`validate_time`, `two_ai_players`, `board_exists_and_is_active`) are
embedded directly from `server/schemas/game.py`.  The identity lookup
(firebase) is modelled as a list of registered user ids, the document
store read as an `Option`, and the chess engine call `game.move(...)`
as a boolean predicate on the move string.  The GameSession operations
themselves live outside the provided sources and are modelled from the
specification.
-/

deriving instance DecidableEq for Except

/-- Sentinel string for an open player slot (`OPEN_SLOT = "OPEN"`). -/
def OPEN_SLOT : String := "OPEN"

/-- Sentinel string for an AI player slot (`AI = "AI"`). -/
def AI : String := "AI"

/-- The two sides of a game, keyed `w` / `b` as in the stored document. -/
inductive Side where
  | w
  | b
deriving DecidableEq, Repr

/-- The opposite side. -/
def Side.other : Side → Side
  | .w => .b
  | .b => .w

/-- One entry of the `draw_offers` mapping: `{made: bool, accepted: bool}`. -/
structure DrawOffer where
  made : Bool
  accepted : Bool
deriving DecidableEq, Repr

/-- The projection of a stored game document that the schema validators in
`server/schemas/game.py` read: the two player-id strings, whose turn it
is, whether the game is in progress, and the draw-offer sub-state. -/
structure Game where
  playerW : String
  playerB : String
  turn : Side
  in_progress : Bool
  offerW : DrawOffer
  offerB : DrawOffer
deriving DecidableEq, Repr

/-- `game.players.values()` in the source: the list of both player ids. -/
def Game.playersValues (g : Game) : List String :=
  [g.playerW, g.playerB]

/-- `game.players[side]` in the source. -/
def Game.playerOn (g : Game) : Side → String
  | .w => g.playerW
  | .b => g.playerB

/-- `game.draw_offers[side]` of the stored document. -/
def Game.offerOn (g : Game) : Side → DrawOffer
  | .w => g.offerW
  | .b => g.offerB

/-- The distinct `ValidationError` raise sites of `server/schemas/game.py`,
one constructor per message. -/
inductive VErr where
  | gameDoesntExist
  | userDoesntExist
  | userNotInGame
  | notPlayersTurn
  | gameOver
  | invalidMove
  | negativeTime
  | twoAIPlayers
  | controllerNeverRegistered
  | controllerNotActive
deriving DecidableEq, Repr

/-- `assert_player_exists`: raises unless the id is registered with the
identity provider, modelled as membership in `auth`. -/
def assert_player_exists (auth : List String) (player : String) : Except VErr Unit :=
  if player ∈ auth then .ok () else .error .userDoesntExist

/-- `MakeMoveInput.validate_move` from `server/schemas/game.py`: the checks
run in source order - game exists; user identity (skipped for the `OPEN`
and `AI` sentinels); user is one of the players; it is the user's turn;
the game is not over; the move applies to the board (`game.move`,
modelled by the predicate `moveOk`). -/
def validate_move (auth : List String) (game : Option Game) (moveOk : String → Bool)
    (user_id mv : String) : Except VErr Unit :=
  match game with
  | none => .error .gameDoesntExist
  | some g =>
    if user_id ≠ OPEN_SLOT ∧ user_id ≠ AI ∧ user_id ∉ auth then .error .userDoesntExist
    else if user_id ∉ g.playersValues then .error .userNotInGame
    else if user_id ≠ g.playerOn g.turn then .error .notPlayersTurn
    else if g.in_progress = false then .error .gameOver
    else if moveOk mv = false then .error .invalidMove
    else .ok ()

/-- `RespondOfferInput.validate_offer_response` from
`server/schemas/game.py`: checks that the game exists, the user exists,
and the user is one of the players; the `response` flag and the stored
`draw_offers` are not consulted. -/
def validate_offer_response (auth : List String) (game : Option Game)
    (user_id : String) (response : Bool) : Except VErr Unit :=
  match game with
  | none => .error .gameDoesntExist
  | some g =>
    if user_id ∉ auth then .error .userDoesntExist
    else if user_id ∉ g.playersValues then .error .userNotInGame
    else .ok ()

/-- `CreateGameInput.validate_time`: rejects a negative `time_per_player`. -/
def validate_time (value : Int) : Except VErr Unit :=
  if value < 0 then .error .negativeTime else .ok ()

/-- `CreateGameInput.two_ai_players`: rejects a game whose two player slots
are both the `AI` sentinel. -/
def two_ai_players (player1_id player2_id : String) : Except VErr Unit :=
  if player1_id = AI ∧ player2_id = AI then .error .twoAIPlayers else .ok ()

/-- The projection of a stored controller document read by
`board_exists_and_is_active`: `controller_dict.get('last_seen', 0)` is
modelled by an optional field defaulted to `0`. -/
structure ControllerDoc where
  last_seen : Option Int
deriving DecidableEq, Repr

/-- `CreateGameInput.board_exists_and_is_active`: the controller document
must exist and `time.time() - controller_dict.get('last_seen', 0)` must be
strictly below `TIMEOUT` (the constant is passed as the parameter `t`,
the current wall clock as `now`). -/
def board_exists_and_is_active (controller : Option ControllerDoc) (now t : Int) :
    Except VErr Unit :=
  match controller with
  | none => .error .controllerNeverRegistered
  | some c =>
    if now - (c.last_seen.getD 0) ≥ t then .error .controllerNotActive
    else .ok ()

/-- Modelled from the spec: a player slot is a closed three-variant sum
`Open | AI | Occupied(player_id)` (the `server/game.py` Game class is not
among the provided sources). -/
inductive Slot where
  | openSlot
  | ai
  | occupied (pid : String)
deriving DecidableEq, Repr

/-- Modelled from the spec: `players[turn]` resolves to `mover_id` by exact
identity match for an occupied slot, or the designated AI agent for an
`AI` slot; an open slot never resolves. -/
def Slot.resolves : Slot → String → Bool
  | .occupied p, uid => p = uid
  | .ai, uid => uid = AI
  | .openSlot, _ => false

/-- Reasons a game can be over. -/
inductive OverReason where
  | checkmate
  | stalemate
  | draw_by_rule
  | draw_accepted
  | resignation
  | timeout
deriving DecidableEq, Repr

/-- The result of a game. -/
inductive GameResult where
  | white_wins
  | black_wins
  | draw
  | undetermined
deriving DecidableEq, Repr

/-- `status` variant of a GameSession. -/
inductive Status where
  | waiting
  | inProgress
  | over (reason : OverReason) (result : GameResult)
deriving DecidableEq, Repr

/-- The win result for the given side. -/
def winFor : Side → GameResult
  | .w => .white_wins
  | .b => .black_wins

/-- Per-move outcome tag produced by the MoveEngine. -/
inductive Outcome where
  | normal
  | chk
  | checkmate
  | stalemate
  | fiftyMove
  | insufficientMaterial
  | repetition
deriving DecidableEq, Repr

/-- MoveEngine failures: unparseable or illegal/ambiguous move text. -/
inductive MoveErr where
  | malformedSAN
  | illegalMove
deriving DecidableEq, Repr

/-- The domain error taxonomy of the spec. -/
inductive DomainError where
  | gameNotInProgress
  | notPlayersTurn
  | userNotInGame
  | slotNotOpen
  | drawOfferAlreadyMade
  | nothingToRespondTo
  | malformedSAN
  | illegalMove
deriving DecidableEq, Repr

/-- Modelled from the spec: the GameSession aggregate (the `server/game.py`
Game class is not among the provided sources) - player slots, turn
pointer, position (as its board-notation string), history, ply count,
clock state, draw-offer and resignation sub-state and overall status. -/
structure GameSession where
  playerW : Slot
  playerB : Slot
  free_slots : Nat
  turn : Side
  fen : String
  history : List String
  ply_count : Nat
  time_controls : Int
  remainingW : Int
  remainingB : Int
  last_move_at : Int
  offerW : DrawOffer
  offerB : DrawOffer
  resignedW : Bool
  resignedB : Bool
  status : Status
deriving DecidableEq, Repr

/-- `players[side]` of a session. -/
def GameSession.player (s : GameSession) : Side → Slot
  | .w => s.playerW
  | .b => s.playerB

/-- `draw_offers[side]` of a session. -/
def GameSession.offer (s : GameSession) : Side → DrawOffer
  | .w => s.offerW
  | .b => s.offerB

/-- `clock.remaining[side]` of a session. -/
def GameSession.remaining (s : GameSession) : Side → Int
  | .w => s.remainingW
  | .b => s.remainingB

/-- Update one player slot. -/
def setPlayer (s : GameSession) : Side → Slot → GameSession
  | .w, p => { s with playerW := p }
  | .b, p => { s with playerB := p }

/-- Update one draw-offer entry. -/
def setOffer (s : GameSession) : Side → DrawOffer → GameSession
  | .w, o => { s with offerW := o }
  | .b, o => { s with offerB := o }

/-- Update one resignation flag. -/
def setResigned (s : GameSession) : Side → Bool → GameSession
  | .w, r => { s with resignedW := r }
  | .b, r => { s with resignedB := r }

/-- The occupied side of a user, if any. -/
def userSide (s : GameSession) (uid : String) : Option Side :=
  if s.playerW = .occupied uid then some .w
  else if s.playerB = .occupied uid then some .b
  else none

/-- Modelled from the spec: the status resulting from a move outcome
(terminal outcomes end the game, otherwise it stays in progress). -/
def afterOutcome (mover : Side) : Outcome → Status
  | .normal => .inProgress
  | .chk => .inProgress
  | .checkmate => .over .checkmate (winFor mover)
  | .stalemate => .over .stalemate .draw
  | .fiftyMove => .over .draw_by_rule .draw
  | .insufficientMaterial => .over .draw_by_rule .draw
  | .repetition => .over .draw_by_rule .draw

/-- Modelled from the spec: the successful effect of `join` - occupy the
slot, decrement `free_slots`, and start the game when full and not
two-AI. -/
def joinEffect (s : GameSession) (sd : Side) (pid : String) : GameSession :=
  let s1 := setPlayer s sd (.occupied pid)
  let s2 := { s1 with free_slots := s1.free_slots - 1 }
  if s2.free_slots = 0 ∧ ¬(s2.playerW = .ai ∧ s2.playerB = .ai)
  then { s2 with status := .inProgress }
  else s2

/-- Modelled from the spec: `join(side, player_id)` (the GameSession
operations of `server/game.py` are not among the provided sources).
Returns the post-call session and an optional domain error. -/
def joinOp (s : GameSession) (sd : Side) (pid : String) : GameSession × Option DomainError :=
  if s.status ≠ .waiting then (s, some .gameNotInProgress)
  else if s.player sd ≠ .openSlot then (s, some .slotNotOpen)
  else (joinEffect s sd pid, none)

/-- Modelled from the spec: the timeout transition of `move` step 1 - the
game ends by timeout with a win for the opponent of the side to move,
without the submitted move being applied. -/
def moveTimeout (s : GameSession) : GameSession :=
  { s with status := .over .timeout (winFor s.turn.other) }

/-- Modelled from the spec: the successful effect of `move` - record the
new position, append to history, bump the ply count, debit the mover's
clock, clear both draw offers, flip the turn and derive the status from
the outcome. -/
def moveEffect (s : GameSession) (mv : String) (now : Int) (fen2 : String)
    (oc : Outcome) : GameSession :=
  { s with
      fen := fen2
      history := s.history ++ [mv]
      ply_count := s.ply_count + 1
      remainingW := if s.turn = .w then s.remainingW - (now - s.last_move_at)
                    else s.remainingW
      remainingB := if s.turn = .b then s.remainingB - (now - s.last_move_at)
                    else s.remainingB
      last_move_at := now
      offerW := ⟨false, false⟩
      offerB := ⟨false, false⟩
      turn := s.turn.other
      status := afterOutcome s.turn oc }

/-- Modelled from the spec: `move(mover_id, move text)` (the GameSession
operations of `server/game.py` are not among the provided sources).
The MoveEngine is the parameter `eng`; a clock expiry before the move
transitions to `Over{timeout}` without applying the submitted move. -/
def moveOp (s : GameSession) (uid mv : String) (now : Int)
    (eng : String → Except MoveErr (String × Outcome)) : GameSession × Option DomainError :=
  if s.status ≠ .inProgress then (s, some .gameNotInProgress)
  else if (s.player s.turn).resolves uid = false then (s, some .notPlayersTurn)
  else if s.time_controls ≠ 0 ∧ s.remaining s.turn ≤ 0 then (moveTimeout s, none)
  else
    match eng mv with
    | .error .malformedSAN => (s, some .malformedSAN)
    | .error .illegalMove => (s, some .illegalMove)
    | .ok (fen2, oc) => (moveEffect s mv now fen2 oc, none)

/-- Modelled from the spec: `offerDraw(user_id)` (the GameSession
operations of `server/game.py` are not among the provided sources). -/
def offerDrawOp (s : GameSession) (uid : String) : GameSession × Option DomainError :=
  if s.status ≠ .inProgress then (s, some .gameNotInProgress)
  else
    match userSide s uid with
    | none => (s, some .userNotInGame)
    | some sd =>
      if (s.offer sd).made then (s, some .drawOfferAlreadyMade)
      else (setOffer s sd ⟨true, false⟩, none)

/-- Modelled from the spec: the side holding an outstanding `made` offer
to which the given user (the player on the opposite side) may respond. -/
def respondTarget (s : GameSession) (uid : String) : Option Side :=
  if (s.offer .w).made = true ∧ s.playerB = .occupied uid then some .w
  else if (s.offer .b).made = true ∧ s.playerW = .occupied uid then some .b
  else none

/-- Modelled from the spec: `respondToOffer(user_id, accept)` (the
GameSession operations of `server/game.py` are not among the provided
sources).  Accepting sets `draw_offers[s].accepted` and ends the game as
a draw; declining resets `draw_offers[s]` and the game continues. -/
def respondOp (s : GameSession) (uid : String) (accept : Bool) :
    GameSession × Option DomainError :=
  if s.status ≠ .inProgress then (s, some .gameNotInProgress)
  else if userSide s uid = none then (s, some .userNotInGame)
  else
    match respondTarget s uid with
    | none => (s, some .nothingToRespondTo)
    | some sd =>
      if accept then
        (setOffer { s with status := .over .draw_accepted .draw } sd
          ⟨(s.offer sd).made, true⟩, none)
      else (setOffer s sd ⟨false, false⟩, none)

/-- Modelled from the spec: `resign(user_id)` (the GameSession operations
of `server/game.py` are not among the provided sources). -/
def resignOp (s : GameSession) (uid : String) : GameSession × Option DomainError :=
  if s.status ≠ .inProgress then (s, some .gameNotInProgress)
  else
    match userSide s uid with
    | none => (s, some .userNotInGame)
    | some sd =>
      ({ setResigned s sd true with status := .over .resignation (winFor sd.other) }, none)

/-- A stored controller registration record. -/
structure Controller where
  board_version : String
  last_seen : Int
  game_id : Option String
deriving DecidableEq, Repr

/-- Controller registration failure. -/
inductive RegErr where
  | alreadyRegistered
deriving DecidableEq, Repr

/-- Modelled from the spec: controller registration (the
`/controllerregister` route and `server/schemas/controller.py` are not
among the provided sources).  A fresh board id creates a record with no
`game_id`; re-registration within the liveness window `t` fails; beyond
it the record is refreshed and an existing `game_id` is preserved. -/
def registerController (existing : Option Controller) (version : String) (now t : Int) :
    Except RegErr Controller :=
  match existing with
  | none => .ok ⟨version, now, none⟩
  | some c =>
    if now - c.last_seen < t then .error .alreadyRegistered
    else .ok ⟨version, now, c.game_id⟩

/-- The game document of the respond-offer tests: white has made a draw
offer, black has not, and both slots are occupied by registered users. -/
def mockGame : Game :=
  { playerW := "some_player_1"
    playerB := "some_player_2"
    turn := .w
    in_progress := true
    offerW := ⟨true, false⟩
    offerB := ⟨false, false⟩ }

/-- The registered users of the respond-offer tests. -/
def mockAuth : List String :=
  ["some_creator", "some_player_1", "some_player_2"]

/-- C1 counterexample: on the test document the only outstanding offer was
made by white, yet the respond-offer validation succeeds for white's own
player - the offer maker can respond to their own offer and no
NothingToRespondTo check exists. -/
theorem c1_counterexample :
    mockGame.offerW.made = true ∧
    mockGame.offerB.made = false ∧
    mockGame.playerOn .w = "some_player_1" ∧
    validate_offer_response mockAuth (some mockGame) "some_player_1" true = .ok () := by
  decide

/-- C1 amended: respond-offer validation on an existing game succeeds
exactly when the user exists and is one of the two players; the stored
draw offers are never consulted, so there is no NothingToRespondTo
error and the offer maker may respond to their own offer. -/
theorem c1_respond_validation_characterization (auth : List String) (g : Game)
    (u : String) (r : Bool) :
    validate_offer_response auth (some g) u r = .ok () ↔
      (u ∈ auth ∧ u ∈ g.playersValues) := by
  constructor
  · intro h
    by_cases h1 : u ∈ auth
    · by_cases h2 : u ∈ g.playersValues
      · exact ⟨h1, h2⟩
      · simp [validate_offer_response, h1, h2] at h
    · simp [validate_offer_response, h1] at h
  · rintro ⟨h1, h2⟩
    simp [validate_offer_response, h1, h2]

/-- C7: game creation rejects a negative time and a two-AI configuration;
otherwise both of these checks pass, and zero time is accepted. -/
theorem c7_create_game_checks (t : Int) (p1 p2 : String) :
    (validate_time t = .ok () ↔ 0 ≤ t) ∧
    (two_ai_players p1 p2 = .ok () ↔ ¬(p1 = AI ∧ p2 = AI)) ∧
    validate_time 0 = .ok () := by
  refine ⟨?_, ?_, by decide⟩
  · unfold validate_time
    split
    · rename_i h
      constructor
      · intro hc; exact absurd hc (by simp)
      · intro h0; exfalso; omega
    · rename_i h
      constructor
      · intro _; omega
      · intro _; rfl
  · unfold two_ai_players
    split
    · rename_i h
      constructor
      · intro hc; exact absurd hc (by simp)
      · intro hn; exact absurd h hn
    · rename_i h
      constructor
      · intro _; exact h
      · intro _; rfl

/-- C10: board validation fails when no controller record exists; with a
record it succeeds exactly when `now - last_seen` is strictly below the
timeout (so at exactly the timeout the controller counts as inactive);
a record with no `last_seen` field is treated as `last_seen = 0` and
rejected whenever the clock is at or past the timeout. -/
theorem c10_board_active (c : ControllerDoc) (now t : Int) :
    board_exists_and_is_active none now t = .error .controllerNeverRegistered ∧
    (board_exists_and_is_active (some c) now t = .ok () ↔
      now - (c.last_seen.getD 0) < t) ∧
    (c.last_seen = none → t ≤ now →
      board_exists_and_is_active (some c) now t = .error .controllerNotActive) := by
  have hred : board_exists_and_is_active (some c) now t =
      if now - (c.last_seen.getD 0) ≥ t then .error .controllerNotActive
      else .ok () := rfl
  refine ⟨rfl, ?_, ?_⟩
  · rw [hred]
    split
    · rename_i h
      constructor
      · intro hc; exact absurd hc (by simp)
      · intro h0; exfalso; omega
    · rename_i h
      constructor
      · intro _; omega
      · intro _; rfl
  · intro hn hle
    rw [hred, hn]
    simp only [Option.getD_none]
    rw [if_pos (by omega)]

/-- C10 witness: a concrete record with no `last_seen` at clock 100 with
timeout 5 is rejected, and one last seen at 96 is accepted. -/
theorem c10_board_active_witness :
    board_exists_and_is_active (some ⟨none⟩) 100 5 = .error .controllerNotActive ∧
    (board_exists_and_is_active (some ⟨some 96⟩) 100 5 = .ok () ↔ (100 : Int) - 96 < 5) := by
  exact ⟨(c10_board_active ⟨none⟩ 100 5).2.2 rfl (by decide),
    by
      have h := (c10_board_active ⟨some 96⟩ 100 5).2.1
      simpa using h⟩

/-- A game in progress where it is white's move, with both players
registered. -/
def turnGame : Game :=
  { playerW := "p1"
    playerB := "p2"
    turn := .w
    in_progress := true
    offerW := ⟨false, false⟩
    offerB := ⟨false, false⟩ }

/-- A finished game (`in_progress = false`) with the same players. -/
def overGame : Game :=
  { playerW := "p1"
    playerB := "p2"
    turn := .w
    in_progress := false
    offerW := ⟨false, false⟩
    offerB := ⟨false, false⟩ }

/-- A game in progress whose white slot is the `AI` sentinel and whose
turn it is. -/
def aiGame : Game :=
  { playerW := "AI"
    playerB := "human"
    turn := .w
    in_progress := true
    offerW := ⟨false, false⟩
    offerB := ⟨false, false⟩ }

/-- C5: a move request by a user who passes the identity check and is a
player in the game, but is not the player whose turn it is, fails
validation with the not-your-turn error (no move is applied, the
validator only reads the stored document). -/
theorem c5_not_players_turn (auth : List String) (g : Game) (moveOk : String → Bool)
    (u mv : String)
    (hid : u = OPEN_SLOT ∨ u = AI ∨ u ∈ auth)
    (hp : u ∈ g.playersValues)
    (ht : u ≠ g.playerOn g.turn) :
    validate_move auth (some g) moveOk u mv = .error .notPlayersTurn := by
  have h1 : ¬(u ≠ OPEN_SLOT ∧ u ≠ AI ∧ u ∉ auth) := by
    rcases hid with h | h | h
    · exact fun hc => hc.1 h
    · exact fun hc => hc.2.1 h
    · exact fun hc => hc.2.2 h
  have hred : validate_move auth (some g) moveOk u mv =
      (if u ≠ OPEN_SLOT ∧ u ≠ AI ∧ u ∉ auth then .error .userDoesntExist
       else if u ∉ g.playersValues then .error .userNotInGame
       else if u ≠ g.playerOn g.turn then .error .notPlayersTurn
       else if g.in_progress = false then .error .gameOver
       else if moveOk mv = false then .error .invalidMove
       else .ok ()) := rfl
  rw [hred, if_neg h1, if_neg (not_not_intro hp), if_pos ht]

/-- C5 witness: on `turnGame` (white to move) the black player's request
fails with the not-your-turn error. -/
theorem c5_witness :
    validate_move ["p1", "p2"] (some turnGame) (fun _ => true) "p2" "e4"
      = .error .notPlayersTurn :=
  c5_not_players_turn ["p1", "p2"] turnGame (fun _ => true) "p2" "e4"
    (Or.inr (Or.inr (by decide))) (by decide) (by decide)

/-- C6 counterexample: on a finished game, a registered player who is not
on turn fails validation with the not-your-turn error, not with the
game-over error, because the turn check runs before the in-progress
check. -/
theorem c6_counterexample :
    overGame.in_progress = false ∧
    "p2" ∈ overGame.playersValues ∧
    validate_move ["p1", "p2"] (some overGame) (fun _ => true) "p2" "e4"
      = .error .notPlayersTurn ∧
    validate_move ["p1", "p2"] (some overGame) (fun _ => true) "p2" "e4"
      ≠ .error .gameOver := by
  decide

/-- C6 amended: a move on a game that is not in progress always fails
validation, but the game-over error is reported only when every earlier
check passes (identity, membership and turn); otherwise the earlier
check's error is reported instead. -/
theorem c6_move_on_finished_game (auth : List String) (g : Game) (moveOk : String → Bool)
    (u mv : String) (hover : g.in_progress = false) :
    (∃ e, validate_move auth (some g) moveOk u mv = .error e) ∧
    ((u = OPEN_SLOT ∨ u = AI ∨ u ∈ auth) → u ∈ g.playersValues →
      u = g.playerOn g.turn →
      validate_move auth (some g) moveOk u mv = .error .gameOver) := by
  have hred : validate_move auth (some g) moveOk u mv =
      (if u ≠ OPEN_SLOT ∧ u ≠ AI ∧ u ∉ auth then .error .userDoesntExist
       else if u ∉ g.playersValues then .error .userNotInGame
       else if u ≠ g.playerOn g.turn then .error .notPlayersTurn
       else if g.in_progress = false then .error .gameOver
       else if moveOk mv = false then .error .invalidMove
       else .ok ()) := rfl
  constructor
  · by_cases h1 : u ≠ OPEN_SLOT ∧ u ≠ AI ∧ u ∉ auth
    · exact ⟨_, by rw [hred, if_pos h1]⟩
    by_cases h2 : u ∉ g.playersValues
    · exact ⟨_, by rw [hred, if_neg h1, if_pos h2]⟩
    by_cases h3 : u ≠ g.playerOn g.turn
    · exact ⟨_, by rw [hred, if_neg h1, if_neg h2, if_pos h3]⟩
    exact ⟨_, by rw [hred, if_neg h1, if_neg h2, if_neg h3, if_pos hover]⟩
  · intro hid hp ht
    have h1 : ¬(u ≠ OPEN_SLOT ∧ u ≠ AI ∧ u ∉ auth) := by
      rcases hid with h | h | h
      · exact fun hc => hc.1 h
      · exact fun hc => hc.2.1 h
      · exact fun hc => hc.2.2 h
    rw [hred, if_neg h1, if_neg (not_not_intro hp), if_neg (not_not_intro ht),
      if_pos hover]

/-- C6 witness: on the finished game `overGame`, white's own request (on
turn) fails with the game-over error, and any request fails with some
error. -/
theorem c6_witness :
    (∃ e, validate_move ["p1", "p2"] (some overGame) (fun _ => true) "p1" "e4"
      = .error e) ∧
    validate_move ["p1", "p2"] (some overGame) (fun _ => true) "p1" "e4"
      = .error .gameOver := by
  have h := c6_move_on_finished_game ["p1", "p2"] overGame (fun _ => true) "p1" "e4" rfl
  exact ⟨h.1, h.2 (Or.inr (Or.inr (by decide))) (by decide) (by decide)⟩

/-- C9 counterexample: a request on behalf of the `AI` sentinel on an
in-progress game, with the sentinel slot on turn, still fails validation
when the submitted move does not apply to the board - the stated
conditions alone do not make validation pass. -/
theorem c9_counterexample :
    aiGame.playerOn aiGame.turn = AI ∧
    aiGame.in_progress = true ∧
    validate_move [] (some aiGame) (fun _ => false) AI "zz" ≠ .ok () := by
  decide

/-- C9 amended: for the sentinel user ids `OPEN` and `AI` the identity
check is skipped entirely (the result does not depend on the registered
users), and such a request passes validation whenever the game is in
progress, the slot on turn holds that sentinel, and the submitted move
applies to the board. -/
theorem c9_sentinel_skips_identity (auth auth2 : List String) (g : Game)
    (moveOk : String → Bool) (u mv : String)
    (hu : u = OPEN_SLOT ∨ u = AI)
    (ht : g.playerOn g.turn = u)
    (hp : g.in_progress = true)
    (hm : moveOk mv = true) :
    validate_move auth (some g) moveOk u mv = .ok () ∧
    validate_move auth (some g) moveOk u mv
      = validate_move auth2 (some g) moveOk u mv := by
  have key : ∀ A : List String, validate_move A (some g) moveOk u mv = .ok () := by
    intro A
    have h1 : ¬(u ≠ OPEN_SLOT ∧ u ≠ AI ∧ u ∉ A) := by
      rcases hu with h | h
      · exact fun hc => hc.1 h
      · exact fun hc => hc.2.1 h
    have hmem : u ∈ g.playersValues := by
      rw [← ht]
      cases h2 : g.turn <;> simp [Game.playerOn, Game.playersValues]
    have hred : validate_move A (some g) moveOk u mv =
        (if u ≠ OPEN_SLOT ∧ u ≠ AI ∧ u ∉ A then .error .userDoesntExist
         else if u ∉ g.playersValues then .error .userNotInGame
         else if u ≠ g.playerOn g.turn then .error .notPlayersTurn
         else if g.in_progress = false then .error .gameOver
         else if moveOk mv = false then .error .invalidMove
         else .ok ()) := rfl
    rw [hred, if_neg h1, if_neg (not_not_intro hmem),
      if_neg (not_not_intro ht.symm), if_neg (by simp [hp]),
      if_neg (by simp [hm])]
  exact ⟨key auth, (key auth).trans (key auth2).symm⟩

/-- C9 witness: on `aiGame` with white (`AI`) to move and an applicable
move, the sentinel request passes validation under an empty and a
nonempty registered-user list alike. -/
theorem c9_witness :
    validate_move [] (some aiGame) (fun _ => true) AI "e4" = .ok () ∧
    validate_move [] (some aiGame) (fun _ => true) AI "e4"
      = validate_move ["someone"] (some aiGame) (fun _ => true) AI "e4" :=
  c9_sentinel_skips_identity [] ["someone"] aiGame (fun _ => true) AI "e4"
    (Or.inr rfl) (by decide) rfl rfl

/-- Transition lemma for C2: a failed `join` leaves the session unchanged. -/
lemma joinOp_err (s : GameSession) (sd : Side) (pid : String) :
    (joinOp s sd pid).2.isSome → (joinOp s sd pid).1 = s := by
  unfold joinOp
  by_cases h1 : s.status ≠ .waiting
  · rw [if_pos h1]; intro _; rfl
  rw [if_neg h1]
  by_cases h2 : s.player sd ≠ .openSlot
  · rw [if_pos h2]; intro _; rfl
  rw [if_neg h2]
  intro h
  simp at h

/-- Transition lemma for C2: a failed `move` leaves the session unchanged. -/
lemma moveOp_err (s : GameSession) (uid mv : String) (now : Int)
    (eng : String → Except MoveErr (String × Outcome)) :
    (moveOp s uid mv now eng).2.isSome → (moveOp s uid mv now eng).1 = s := by
  unfold moveOp
  by_cases h1 : s.status ≠ .inProgress
  · rw [if_pos h1]; intro _; rfl
  rw [if_neg h1]
  by_cases h2 : (s.player s.turn).resolves uid = false
  · rw [if_pos h2]; intro _; rfl
  rw [if_neg h2]
  by_cases h3 : s.time_controls ≠ 0 ∧ s.remaining s.turn ≤ 0
  · rw [if_pos h3]; intro h; simp at h
  rw [if_neg h3]
  cases h4 : eng mv with
  | error e => cases e <;> (intro _; rfl)
  | ok p =>
    obtain ⟨fen2, oc⟩ := p
    intro h
    simp at h

/-- Transition lemma for C2: a failed `offerDraw` leaves the session
unchanged. -/
lemma offerDrawOp_err (s : GameSession) (uid : String) :
    (offerDrawOp s uid).2.isSome → (offerDrawOp s uid).1 = s := by
  unfold offerDrawOp
  by_cases h1 : s.status ≠ .inProgress
  · rw [if_pos h1]; intro _; rfl
  rw [if_neg h1]
  cases h2 : userSide s uid with
  | none => intro _; rfl
  | some sd =>
    intro h
    by_cases h3 : (s.offer sd).made
    · simp [h3]
    · exfalso
      simp [h3] at h

/-- Transition lemma for C2: a failed `respondToOffer` leaves the session
unchanged. -/
lemma respondOp_err (s : GameSession) (uid : String) (acc : Bool) :
    (respondOp s uid acc).2.isSome → (respondOp s uid acc).1 = s := by
  unfold respondOp
  by_cases h1 : s.status ≠ .inProgress
  · rw [if_pos h1]; intro _; rfl
  rw [if_neg h1]
  by_cases h2 : userSide s uid = none
  · rw [if_pos h2]; intro _; rfl
  rw [if_neg h2]
  cases h3 : respondTarget s uid with
  | none => intro _; rfl
  | some sd =>
    cases acc with
    | true => intro h; simp at h
    | false => intro h; simp at h

/-- Transition lemma for C2: a failed `resign` leaves the session
unchanged. -/
lemma resignOp_err (s : GameSession) (uid : String) :
    (resignOp s uid).2.isSome → (resignOp s uid).1 = s := by
  unfold resignOp
  by_cases h1 : s.status ≠ .inProgress
  · rw [if_pos h1]; intro _; rfl
  rw [if_neg h1]
  cases h2 : userSide s uid with
  | none => intro _; rfl
  | some sd => intro h; simp at h

/-- C2: each of the five GameSession operations, on any input on which it
returns an error, leaves the session identical to its pre-call value
(atomicity - no partial mutation on failure). -/
theorem c2_no_mutation_on_failure (s : GameSession) (sd : Side) (pid uid mv : String)
    (now : Int) (eng : String → Except MoveErr (String × Outcome)) (acc : Bool) :
    ((joinOp s sd pid).2.isSome → (joinOp s sd pid).1 = s) ∧
    ((moveOp s uid mv now eng).2.isSome → (moveOp s uid mv now eng).1 = s) ∧
    ((offerDrawOp s uid).2.isSome → (offerDrawOp s uid).1 = s) ∧
    ((respondOp s uid acc).2.isSome → (respondOp s uid acc).1 = s) ∧
    ((resignOp s uid).2.isSome → (resignOp s uid).1 = s) :=
  ⟨joinOp_err s sd pid, moveOp_err s uid mv now eng, offerDrawOp_err s uid,
    respondOp_err s uid acc, resignOp_err s uid⟩

/-- A finished session on which every operation fails. -/
def overSession : GameSession :=
  { playerW := .occupied "p1"
    playerB := .occupied "p2"
    free_slots := 0
    turn := .w
    fen := "startfen"
    history := []
    ply_count := 0
    time_controls := 0
    remainingW := 0
    remainingB := 0
    last_move_at := 0
    offerW := ⟨false, false⟩
    offerB := ⟨false, false⟩
    resignedW := false
    resignedB := false
    status := .over .resignation .white_wins }

/-- C2 witness: on a finished session all five operations fail and each
leaves the session unchanged. -/
theorem c2_witness :
    (joinOp overSession .w "p3").1 = overSession ∧
    (moveOp overSession "p1" "e4" 0 (fun _ => .error .malformedSAN)).1 = overSession ∧
    (offerDrawOp overSession "p1").1 = overSession ∧
    (respondOp overSession "p1" true).1 = overSession ∧
    (resignOp overSession "p1").1 = overSession :=
  have h := c2_no_mutation_on_failure overSession .w "p3" "p1" "e4" 0
    (fun _ => .error .malformedSAN) true
  ⟨h.1 (by decide), h.2.1 (by decide), h.2.2.1 (by decide), h.2.2.2.1 (by decide),
    h.2.2.2.2 (by decide)⟩

/-- Reduction lemma for responding to an outstanding offer: under the
preconditions of the spec, the responder's side is found and the offer on
side `os` is the one responded to. -/
lemma respondOp_reduces (s : GameSession) (uid : String) (os : Side) (acc : Bool)
    (h1 : s.status = .inProgress)
    (h2 : (s.offer os).made = true)
    (h3 : s.player os.other = .occupied uid)
    (h4 : s.player os ≠ .occupied uid) :
    respondOp s uid acc =
      (if acc then
        (setOffer { s with status := .over .draw_accepted .draw } os
          ⟨(s.offer os).made, true⟩, none)
      else (setOffer s os ⟨false, false⟩, none)) := by
  have hrt : respondTarget s uid = some os := by
    cases os with
    | w =>
      have hB : s.playerB = .occupied uid := h3
      unfold respondTarget
      rw [if_pos ⟨h2, hB⟩]
    | b =>
      have hW : s.playerW = .occupied uid := h3
      have hB : s.playerB ≠ .occupied uid := h4
      unfold respondTarget
      rw [if_neg (fun hc => hB hc.2), if_pos ⟨h2, hW⟩]
  have hus : userSide s uid ≠ none := by
    cases os with
    | w =>
      have hB : s.playerB = .occupied uid := h3
      have hW : s.playerW ≠ .occupied uid := h4
      unfold userSide
      rw [if_neg hW, if_pos hB]
      exact fun hc => Option.noConfusion hc
    | b =>
      have hW : s.playerW = .occupied uid := h3
      unfold userSide
      rw [if_pos hW]
      exact fun hc => Option.noConfusion hc
  unfold respondOp
  rw [if_neg (not_not_intro h1), if_neg hus, hrt]

/-- C3: on an in-progress game with an outstanding offer made by side
`os`, the player on the opposite side accepting it marks the offer
accepted and ends the game as an accepted draw. -/
theorem c3_accept_draw (s : GameSession) (uid : String) (os : Side)
    (h1 : s.status = .inProgress)
    (h2 : (s.offer os).made = true)
    (h3 : s.player os.other = .occupied uid)
    (h4 : s.player os ≠ .occupied uid) :
    (respondOp s uid true).2 = none ∧
    ((respondOp s uid true).1.offer os).accepted = true ∧
    (respondOp s uid true).1.status = .over .draw_accepted .draw := by
  rw [respondOp_reduces s uid os true h1 h2 h3 h4]
  cases os with
  | w => exact ⟨rfl, rfl, rfl⟩
  | b => exact ⟨rfl, rfl, rfl⟩

/-- C4: on an in-progress game with an outstanding offer made by side
`os`, the player on the opposite side declining it resets that offer
entry to its initial value and the game stays in progress. -/
theorem c4_decline_draw (s : GameSession) (uid : String) (os : Side)
    (h1 : s.status = .inProgress)
    (h2 : (s.offer os).made = true)
    (h3 : s.player os.other = .occupied uid)
    (h4 : s.player os ≠ .occupied uid) :
    (respondOp s uid false).2 = none ∧
    (respondOp s uid false).1.offer os = ⟨false, false⟩ ∧
    (respondOp s uid false).1.status = .inProgress := by
  rw [respondOp_reduces s uid os false h1 h2 h3 h4]
  cases os with
  | w => exact ⟨rfl, rfl, h1⟩
  | b => exact ⟨rfl, rfl, h1⟩

/-- The in-progress session of the draw-protocol scenario: white P1 has
made a draw offer, black is P2. -/
def drawSession : GameSession :=
  { playerW := .occupied "P1"
    playerB := .occupied "P2"
    free_slots := 0
    turn := .w
    fen := "rnbqkbnr/pppppppp/8/8/8/8/PPPPPPPP/RNBQKBNR w KQkq - 0 1"
    history := []
    ply_count := 0
    time_controls := 0
    remainingW := 0
    remainingB := 0
    last_move_at := 0
    offerW := ⟨true, false⟩
    offerB := ⟨false, false⟩
    resignedW := false
    resignedB := false
    status := .inProgress }

/-- C3 witness: P2 accepting white's offer on `drawSession` marks the offer
accepted and ends the game as an accepted draw. -/
theorem c3_witness :
    (respondOp drawSession "P2" true).2 = none ∧
    ((respondOp drawSession "P2" true).1.offer .w).accepted = true ∧
    (respondOp drawSession "P2" true).1.status = .over .draw_accepted .draw :=
  c3_accept_draw drawSession "P2" .w rfl rfl rfl (by decide)

/-- C4 witness: P2 declining white's offer on `drawSession` resets white's
offer entry and the game remains in progress. -/
theorem c4_witness :
    (respondOp drawSession "P2" false).2 = none ∧
    (respondOp drawSession "P2" false).1.offer .w = ⟨false, false⟩ ∧
    (respondOp drawSession "P2" false).1.status = .inProgress :=
  c4_decline_draw drawSession "P2" .w rfl rfl rfl (by decide)

/-- C8: re-registering a controller within the liveness window fails, and
re-registering once the window has elapsed succeeds with the stored
`game_id` carried over unchanged into the refreshed record. -/
theorem c8_reregistration (c : Controller) (v : String) (now t : Int) :
    (now - c.last_seen < t →
      registerController (some c) v now t = .error .alreadyRegistered) ∧
    (t ≤ now - c.last_seen →
      registerController (some c) v now t = .ok ⟨v, now, c.game_id⟩) := by
  have hred : registerController (some c) v now t =
      if now - c.last_seen < t then .error .alreadyRegistered
      else .ok ⟨v, now, c.game_id⟩ := rfl
  constructor
  · intro h
    rw [hred, if_pos h]
  · intro h
    rw [hred, if_neg (by omega)]

/-- C8 witness: with window 5, a controller last seen at 50 cannot
re-register at 51, and one last seen at 40 re-registers at 51 keeping
its assigned game id. -/
theorem c8_witness :
    registerController (some ⟨"0.0.1", 50, some "g1"⟩) "0.0.2" 51 5
      = .error .alreadyRegistered ∧
    registerController (some ⟨"0.0.1", 40, some "g1"⟩) "0.0.2" 51 5
      = .ok ⟨"0.0.2", 51, some "g1"⟩ :=
  ⟨(c8_reregistration ⟨"0.0.1", 50, some "g1"⟩ "0.0.2" 51 5).1 (by decide),
    (c8_reregistration ⟨"0.0.1", 40, some "g1"⟩ "0.0.2" 51 5).2 (by decide)⟩
